import Mathlib

/-!
Shallow embedding of the goal-based financial planning engine of
MoneyMentor (`src/agents/goal_agent.py`, class `GoalAgent`), together with
proofs about its specified properties.

Modelling conventions:
* Python floats are modelled as exact rationals (ℚ).
* `round(x, 2)` is modelled by `pyRound2`, round-half-to-even at two
  decimal places, matching Python 3 `round`.
* Goal time horizons are naturals (every horizon appearing in the source --
  templates, defaults, and test scenarios -- is a non-negative integer).
* Python dicts used as records become structures; the two configuration
  dicts (`goal_templates`, `investment_recommendations`) become association
  lists, preserving Python's insertion iteration order.
* A Python `KeyError` (dictionary lookup miss) is modelled by `Option`:
  `analyze_single_goal` returns `none` exactly when the
  `investment_recommendations` lookup would raise.
-/

namespace MoneyMentor

/-- Round a rational to the nearest integer, ties to even
(the rounding mode of Python 3 `round`). -/
def roundHalfEven (q : ℚ) : ℤ :=
  if q - ⌊q⌋ < 1/2 then ⌊q⌋
  else if 1/2 < q - ⌊q⌋ then ⌊q⌋ + 1
  else if ⌊q⌋ % 2 = 0 then ⌊q⌋ else ⌊q⌋ + 1

/-- Model of Python `round(x, 2)`. -/
def pyRound2 (q : ℚ) : ℚ :=
  (roundHalfEven (q * 100) : ℚ) / 100

theorem roundHalfEven_ge_floor (q : ℚ) : ⌊q⌋ ≤ roundHalfEven q := by
  unfold roundHalfEven
  split_ifs <;> omega

theorem roundHalfEven_le_floor_add_one (q : ℚ) : roundHalfEven q ≤ ⌊q⌋ + 1 := by
  unfold roundHalfEven
  split_ifs <;> omega

theorem roundHalfEven_le (q : ℚ) : (roundHalfEven q : ℚ) ≤ q + 1/2 := by
  have hf : (⌊q⌋ : ℚ) ≤ q := Int.floor_le q
  have hf' : q < ⌊q⌋ + 1 := Int.lt_floor_add_one q
  unfold roundHalfEven
  split_ifs with h1 h2 h3 <;> push_cast <;> linarith

theorem le_roundHalfEven (q : ℚ) : q - 1/2 ≤ (roundHalfEven q : ℚ) := by
  have hf : (⌊q⌋ : ℚ) ≤ q := Int.floor_le q
  have hf' : q < ⌊q⌋ + 1 := Int.lt_floor_add_one q
  unfold roundHalfEven
  split_ifs with h1 h2 h3 <;> push_cast <;> linarith

theorem roundHalfEven_mono {a b : ℚ} (h : a ≤ b) :
    roundHalfEven a ≤ roundHalfEven b := by
  rcases lt_or_le ⌊a⌋ ⌊b⌋ with hlt | hle
  · calc roundHalfEven a ≤ ⌊a⌋ + 1 := roundHalfEven_le_floor_add_one a
      _ ≤ ⌊b⌋ := by omega
      _ ≤ roundHalfEven b := roundHalfEven_ge_floor b
  · have hfe : ⌊a⌋ = ⌊b⌋ := le_antisymm (Int.floor_le_floor h) hle
    have hfr : a - (⌊b⌋ : ℚ) ≤ b - (⌊b⌋ : ℚ) := by linarith
    unfold roundHalfEven
    rw [hfe]
    split_ifs <;> first | omega | linarith

theorem pyRound2_mono {a b : ℚ} (h : a ≤ b) : pyRound2 a ≤ pyRound2 b := by
  unfold pyRound2
  have h100 : a * 100 ≤ b * 100 := by linarith
  have := roundHalfEven_mono h100
  have : (roundHalfEven (a * 100) : ℚ) ≤ (roundHalfEven (b * 100) : ℚ) := by
    exact_mod_cast this
  linarith

theorem pyRound2_le (q : ℚ) : pyRound2 q ≤ q + 1/200 := by
  unfold pyRound2
  have := roundHalfEven_le (q * 100)
  linarith

theorem le_pyRound2 (q : ℚ) : q - 1/200 ≤ pyRound2 q := by
  unfold pyRound2
  have := le_roundHalfEven (q * 100)
  linarith

theorem pyRound2_zero : pyRound2 0 = 0 := by
  unfold pyRound2 roundHalfEven
  norm_num

theorem pyRound2_nonneg {q : ℚ} (h : 0 ≤ q) : 0 ≤ pyRound2 q := by
  unfold pyRound2
  have h0 : (0:ℤ) ≤ ⌊q * 100⌋ := Int.floor_nonneg.mpr (by linarith)
  have := roundHalfEven_ge_floor (q * 100)
  have : (0:ℤ) ≤ roundHalfEven (q * 100) := by omega
  have : (0:ℚ) ≤ (roundHalfEven (q * 100) : ℚ) := by exact_mod_cast this
  positivity

theorem pyRound2_eq_zero_of_small {q : ℚ} (h0 : 0 ≤ q) (h1 : q < 1/200) :
    pyRound2 q = 0 := by
  have hfl : ⌊q * 100⌋ = 0 := by
    rw [Int.floor_eq_zero_iff]
    constructor <;> [linarith; linarith]
  unfold pyRound2 roundHalfEven
  rw [hfl]
  have : q * 100 - ((0:ℤ):ℚ) < 1/2 := by push_cast; linarith
  rw [if_pos this]
  norm_num

/-! ### Data model (`GoalAgent.__init__`) -/

/-- One entry of `self.goal_templates` (`goal_agent.py` lines 7-64).
`typical_amount` keeps the Python lambda as a function of monthly income. -/
structure GoalTemplate where
  typical_amount : ℚ → ℚ
  time_horizon : ℕ
  priority : String
  investment_type : String
  expected_return : ℚ

/-- `self.goal_templates`: an insertion-ordered dict, modelled as an
association list in the same order. -/
def goal_templates : List (String × GoalTemplate) :=
  [ ("emergency_fund",
      { typical_amount := fun income => income * 6, time_horizon := 1,
        priority := "critical", investment_type := "liquid", expected_return := 5 }),
    ("house_purchase",
      { typical_amount := fun income => income * 60, time_horizon := 7,
        priority := "high", investment_type := "hybrid", expected_return := 10 }),
    ("car_purchase",
      { typical_amount := fun income => income * 8, time_horizon := 3,
        priority := "medium", investment_type := "conservative", expected_return := 8 }),
    ("marriage",
      { typical_amount := fun income => income * 20, time_horizon := 4,
        priority := "high", investment_type := "moderate", expected_return := 9 }),
    ("education",
      { typical_amount := fun income => income * 36, time_horizon := 5,
        priority := "high", investment_type := "moderate", expected_return := 11 }),
    ("retirement",
      { typical_amount := fun income => income * 300, time_horizon := 25,
        priority := "critical", investment_type := "aggressive", expected_return := 12 }),
    ("vacation",
      { typical_amount := fun income => income * 2, time_horizon := 1,
        priority := "low", investment_type := "liquid", expected_return := 6 }),
    ("child_education",
      { typical_amount := fun income => income * 60, time_horizon := 15,
        priority := "critical", investment_type := "aggressive", expected_return := 12 }) ]

/-- Asset allocation dict `{'liquid': .., 'debt': .., 'equity': ..}`. -/
structure Allocation where
  liquid : ℚ
  debt : ℚ
  equity : ℚ
deriving DecidableEq

/-- One entry of `self.investment_recommendations` (lines 67-93). -/
structure StrategyProfile where
  allocation : Allocation
  instruments : List String
  risk_level : String
deriving DecidableEq

/-- `self.investment_recommendations`, in insertion order. -/
def investment_recommendations : List (String × StrategyProfile) :=
  [ ("liquid",
      { allocation := { liquid := 80, debt := 20, equity := 0 },
        instruments := ["Liquid Funds", "Ultra Short Duration Funds", "Savings Account"],
        risk_level := "Very Low" }),
    ("conservative",
      { allocation := { liquid := 20, debt := 60, equity := 20 },
        instruments := ["Short Duration Funds", "Conservative Hybrid Funds", "FD"],
        risk_level := "Low" }),
    ("moderate",
      { allocation := { liquid := 10, debt := 40, equity := 50 },
        instruments := ["Balanced Advantage Funds", "Hybrid Funds", "Large Cap Funds"],
        risk_level := "Moderate" }),
    ("hybrid",
      { allocation := { liquid := 5, debt := 25, equity := 70 },
        instruments := ["Multi Cap Funds", "Large & Mid Cap Funds", "Debt Funds"],
        risk_level := "Moderate to High" }),
    ("aggressive",
      { allocation := { liquid := 5, debt := 15, equity := 80 },
        instruments := ["Mid Cap Funds", "Small Cap Funds", "Multi Cap Funds"],
        risk_level := "High" }) ]

/-- Dictionary lookup `self.investment_recommendations[key]`, `none` on a
missing key (Python `KeyError`). -/
def lookupRecommendation (key : String) : Option StrategyProfile :=
  (investment_recommendations.find? (fun p => p.1 == key)).map Prod.snd

/-- A goal request dict passed into `analyze_goals` / `analyze_single_goal`.
`none` fields model absent dict keys (`goal.get(...)` defaults apply). -/
structure GoalRequest where
  name : Option String
  amount : Option ℚ
  time_years : Option ℕ
  current_savings : Option ℚ
deriving DecidableEq

/-- The dict returned by `analyze_single_goal` (lines 167-187).
`milestone_tracking` is omitted: it depends on the wall clock
(`datetime.now()`), which has no place in this pure embedding, and no
other part of the engine reads it. -/
structure AnalyzedGoal where
  name : String
  target_amount : ℚ
  time_horizon_years : ℕ
  current_corpus : ℚ
  remaining_amount : ℚ
  monthly_sip_required : ℚ
  total_investment_needed : ℚ
  expected_return : ℚ
  future_value_projection : ℚ
  corpus_growth_without_sip : ℚ
  investment_strategy : String
  recommended_instruments : List String
  asset_allocation : Allocation
  risk_level : String
  priority : String
  goal_category : String
  inflation_adjusted_target : ℚ
  feasibility_score : ℕ
deriving DecidableEq

/-! ### Helper: Python substring test (`in` on strings) -/

/-- Whether the second list is an initial segment of the first. -/
def charsStartWith : List Char → List Char → Bool
  | _, [] => true
  | [], _ :: _ => false
  | a :: as, b :: bs => a == b && charsStartWith as bs

/-- Whether `sub` occurs contiguously inside `s`. -/
def charsContain : List Char → List Char → Bool
  | [], sub => sub.isEmpty
  | c :: cs, sub => charsStartWith (c :: cs) sub || charsContain cs sub

/-- Python `sub in s` on strings. -/
def strIn (sub s : String) : Bool :=
  charsContain s.toList sub.toList

/-- Python `str.lower()`; character-wise ASCII lowercasing, which covers
every goal and template name in this code base. -/
def pyLower (s : String) : String :=
  String.mk (s.toList.map Char.toLower)

/-! ### Template resolution and strategy selection -/

/-- The template-matching loop of `analyze_single_goal` (lines 140-144):
first catalog entry whose key contains the goal name or is contained in it. -/
def resolveTemplate (goal_name : String) : Option GoalTemplate :=
  (goal_templates.find? (fun p => strIn p.1 goal_name || strIn goal_name p.1)).map Prod.snd

/-- `determine_investment_strategy` (lines 284-296). Every template of the
catalog carries an `investment_type` key, so the Python membership test
`'investment_type' in template` is always true when a template is given. -/
def determine_investment_strategy (time_horizon : ℕ) (template : Option GoalTemplate) :
    String :=
  match template with
  | some t => t.investment_type
  | none =>
    if time_horizon ≤ 2 then "liquid"
    else if time_horizon ≤ 5 then "conservative"
    else if time_horizon ≤ 10 then "moderate"
    else "aggressive"

/-- `get_expected_return` (lines 298-316). -/
def get_expected_return (investment_type : String) (time_horizon : ℕ) : ℚ :=
  let base : ℚ :=
    if investment_type = "liquid" then 5
    else if investment_type = "conservative" then 7
    else if investment_type = "moderate" then 9
    else if investment_type = "hybrid" then 10
    else if investment_type = "aggressive" then 12
    else 8
  if time_horizon > 10 then base + 1
  else if time_horizon < 2 then base - 1
  else base

/-! ### Financial math (`calculate_sip_amount`, `calculate_future_value`,
`adjust_for_inflation`, `calculate_feasibility_score`) -/

/-- The unrounded SIP formula `target * r / ((1+r)^n - 1)` of
`calculate_sip_amount` (line 327). -/
def sipRaw (target_amount annual_return : ℚ) (years : ℕ) : ℚ :=
  target_amount * (annual_return / 12 / 100) /
    ((1 + annual_return / 12 / 100) ^ (years * 12) - 1)

/-- `calculate_sip_amount` (lines 318-329). -/
def calculate_sip_amount (target_amount annual_return : ℚ) (years : ℕ) : ℚ :=
  if annual_return ≤ 0 ∨ years = 0 then
    if 0 < years then target_amount / (years * 12) else target_amount
  else
    pyRound2 (sipRaw target_amount annual_return years)

/-- The unrounded future-value formula
`sip * (((1+r)^n - 1) / r) * (1+r)` of `calculate_future_value` (line 340). -/
def fvRaw (monthly_sip annual_return : ℚ) (years : ℕ) : ℚ :=
  monthly_sip * (((1 + annual_return / 12 / 100) ^ (years * 12) - 1) /
    (annual_return / 12 / 100)) * (1 + annual_return / 12 / 100)

/-- `calculate_future_value` (lines 331-342). -/
def calculate_future_value (monthly_sip annual_return : ℚ) (years : ℕ) : ℚ :=
  if annual_return ≤ 0 ∨ years = 0 then monthly_sip * 12 * years
  else pyRound2 (fvRaw monthly_sip annual_return years)

/-- `adjust_for_inflation` (lines 344-346), default inflation rate 6. -/
def adjust_for_inflation (amount : ℚ) (years : ℕ) : ℚ :=
  pyRound2 (amount * (1 + 6 / 100) ^ years)

/-- `calculate_feasibility_score` (lines 348-363). -/
def calculate_feasibility_score (monthly_sip monthly_income : ℚ) : ℕ :=
  let sip_percentage := monthly_sip / monthly_income * 100
  if sip_percentage ≤ 5 then 100
  else if sip_percentage ≤ 10 then 80
  else if sip_percentage ≤ 15 then 60
  else if sip_percentage ≤ 20 then 40
  else if sip_percentage ≤ 25 then 20
  else 0

/-- `categorize_goal` (lines 365-379). -/
def categorize_goal (goal_name : String) : String :=
  let categories : List (String × List String) :=
    [ ("wealth", ["retirement", "investment", "corpus"]),
      ("lifestyle", ["car", "bike", "vacation", "travel"]),
      ("property", ["house", "home", "property", "flat"]),
      ("family", ["marriage", "wedding", "child", "education"]),
      ("security", ["emergency", "insurance", "health"]) ]
  match categories.find? (fun c => c.2.any (fun kw => strIn kw goal_name)) with
  | some c => c.1
  | none => "other"

/-! ### `analyze_single_goal` (lines 131-187)

The locals of the Python function become the named helpers below, so that
theorems can speak about each intermediate value. -/

/-- `goal_name = goal.get('name', 'Custom Goal').lower()` (line 134). -/
def goalNameOf (goal : GoalRequest) : String :=
  pyLower (goal.name.getD "Custom Goal")

/-- The resolved template of a request (lines 140-144). -/
def templateOf (goal : GoalRequest) : Option GoalTemplate :=
  resolveTemplate (goalNameOf goal)

/-- `time_horizon = goal.get('time_years', 5)` (line 136). -/
def horizonOf (goal : GoalRequest) : ℕ :=
  goal.time_years.getD 5

/-- `current_corpus = goal.get('current_savings', current_savings)` (line 137). -/
def corpusOf (goal : GoalRequest) (current_savings : ℚ) : ℚ :=
  goal.current_savings.getD current_savings

/-- `target_amount` after the template fallback (lines 135, 146-148):
a missing or zero (falsy) amount is replaced by the template formula
when a template resolved. -/
def targetOf (goal : GoalRequest) (monthly_income : ℚ) : ℚ :=
  let target0 := goal.amount.getD 0
  match templateOf goal with
  | some t => if target0 = 0 then t.typical_amount monthly_income else target0
  | none => target0

/-- `investment_type` (line 151). -/
def strategyOf (goal : GoalRequest) : String :=
  determine_investment_strategy (horizonOf goal) (templateOf goal)

/-- `expected_return` (line 152). -/
def returnOf (goal : GoalRequest) : ℚ :=
  get_expected_return (strategyOf goal) (horizonOf goal)

/-- `remaining_amount = max(0, target_amount - current_corpus)` (line 155). -/
def remainingOf (goal : GoalRequest) (monthly_income current_savings : ℚ) : ℚ :=
  max 0 (targetOf goal monthly_income - corpusOf goal current_savings)

/-- `monthly_sip` (lines 157-161): the goal is immediate when the horizon
is zero, otherwise the SIP formula applies. -/
def sipOf (goal : GoalRequest) (monthly_income current_savings : ℚ) : ℚ :=
  if horizonOf goal = 0 then remainingOf goal monthly_income current_savings
  else calculate_sip_amount (remainingOf goal monthly_income current_savings)
    (returnOf goal) (horizonOf goal)

/-- `future_value_with_growth` (lines 157-162). -/
def fvOf (goal : GoalRequest) (monthly_income current_savings : ℚ) : ℚ :=
  if horizonOf goal = 0 then remainingOf goal monthly_income current_savings
  else calculate_future_value (sipOf goal monthly_income current_savings)
    (returnOf goal) (horizonOf goal) + corpusOf goal current_savings

/-- `analyze_single_goal` (lines 131-187). The three
`self.investment_recommendations[investment_type]` subscripts are the only
spots that can raise (`KeyError`), modelled by the `Option`. -/
def analyze_single_goal (goal : GoalRequest) (monthly_income current_savings : ℚ) :
    Option AnalyzedGoal :=
  (lookupRecommendation (strategyOf goal)).map (fun rec =>
    { name := goal.name.getD "Custom Goal",
      target_amount := targetOf goal monthly_income,
      time_horizon_years := horizonOf goal,
      current_corpus := corpusOf goal current_savings,
      remaining_amount := remainingOf goal monthly_income current_savings,
      monthly_sip_required := sipOf goal monthly_income current_savings,
      total_investment_needed :=
        sipOf goal monthly_income current_savings * 12 * horizonOf goal,
      expected_return := returnOf goal,
      future_value_projection := fvOf goal monthly_income current_savings,
      corpus_growth_without_sip :=
        if 0 < corpusOf goal current_savings then
          corpusOf goal current_savings * (1 + returnOf goal / 100) ^ horizonOf goal
        else 0,
      investment_strategy := strategyOf goal,
      recommended_instruments := rec.instruments,
      asset_allocation := rec.allocation,
      risk_level := rec.risk_level,
      priority := match templateOf goal with
        | some t => t.priority
        | none => "medium",
      goal_category := categorize_goal (goalNameOf goal),
      inflation_adjusted_target :=
        adjust_for_inflation (targetOf goal monthly_income) (horizonOf goal),
      feasibility_score :=
        calculate_feasibility_score (sipOf goal monthly_income current_savings)
          monthly_income })

/-! ### Aggregation (`assess_feasibility`, `optimize_goals`, `analyze_goals`,
`generate_default_goals`) -/

/-- The dict returned by `assess_feasibility` (lines 426-432). -/
structure FeasibilityReport where
  status : String
  sip_percentage_of_income : ℚ
  message : String
  recommended_max_sip : ℚ
  excess_amount : ℚ
deriving DecidableEq

/-- `assess_feasibility` (lines 409-432). -/
def assess_feasibility (total_sip_needed monthly_income : ℚ) : FeasibilityReport :=
  let sip_percentage := total_sip_needed / monthly_income * 100
  { status :=
      if sip_percentage ≤ 15 then "Highly Feasible"
      else if sip_percentage ≤ 25 then "Feasible with Discipline"
      else if sip_percentage ≤ 35 then "Challenging but Possible"
      else "Needs Restructuring",
    sip_percentage_of_income := sip_percentage,
    message :=
      if sip_percentage ≤ 15 then
        "Your goals are well within your income capacity. Great planning!"
      else if sip_percentage ≤ 25 then
        "Your goals are achievable with disciplined saving and expense management."
      else if sip_percentage ≤ 35 then
        "Consider prioritizing goals or extending timelines for better feasibility."
      else
        "Current goals exceed recommended savings rate. Prioritization is essential.",
    recommended_max_sip := monthly_income * (25 / 100),
    excess_amount := max 0 (total_sip_needed - monthly_income * (25 / 100)) }

/-- The suggestion dicts produced by `optimize_goals` (lines 434-474),
discriminated by their `'type'` value. -/
inductive Suggestion where
  | prioritization (message action : String)
  | timeline_extension (goal : String) (current_timeline suggested_timeline : ℕ)
      (new_sip : ℚ) (message : String)
  | income_enhancement (message : String) (target_increase : ℚ)
deriving DecidableEq

/-- `optimize_goals` (lines 434-474). -/
def optimize_goals (goals : List AnalyzedGoal) (monthly_income : ℚ) :
    List Suggestion :=
  let max_recommended_sip := monthly_income * (25 / 100)
  let high_priority_goals :=
    goals.filter (fun g => g.priority == "critical" || g.priority == "high")
  let total_high_priority_sip :=
    (high_priority_goals.map (fun g => g.monthly_sip_required)).sum
  (if max_recommended_sip < total_high_priority_sip then
    [Suggestion.prioritization "Focus on critical and high-priority goals first"
      "Consider deferring medium and low priority goals"]
  else []) ++
  (goals.filter (fun g => g.feasibility_score < 60)).map (fun g =>
    Suggestion.timeline_extension g.name g.time_horizon_years
      (g.time_horizon_years + 2)
      (calculate_sip_amount g.remaining_amount g.expected_return
        (g.time_horizon_years + 2))
      "Extend timeline by 2 years to reduce monthly SIP burden") ++
  (if max_recommended_sip < (goals.map (fun g => g.monthly_sip_required)).sum then
    [Suggestion.income_enhancement
      "Consider increasing income through skill development or side income"
      ((goals.map (fun g => g.monthly_sip_required)).sum - max_recommended_sip)]
  else [])

/-- The dict returned by `analyze_goals` (lines 121-129).
`goal_priorities` and the presentation-only `recommendations` blob of
`generate_goal_recommendations` are omitted: no downstream computation and
no claim reads them. -/
structure GoalPortfolio where
  goals : List AnalyzedGoal
  total_monthly_sip_needed : ℚ
  income_allocation_percentage : ℚ
  feasibility_analysis : FeasibilityReport
  optimization_suggestions : List Suggestion
deriving DecidableEq

/-- The non-empty branch of `analyze_goals` (lines 101-129): analyze every
goal, sum the SIPs, and aggregate. `none` if any single analysis fails. -/
def analyzeGoalsCore (user_goals : List GoalRequest)
    (monthly_income current_savings : ℚ) : Option GoalPortfolio :=
  (user_goals.mapM (fun g => analyze_single_goal g monthly_income current_savings)).map
    (fun analyzed_goals =>
      let total_monthly_sip_needed :=
        (analyzed_goals.map (fun g => g.monthly_sip_required)).sum
      { goals := analyzed_goals,
        total_monthly_sip_needed := total_monthly_sip_needed,
        income_allocation_percentage := total_monthly_sip_needed / monthly_income * 100,
        feasibility_analysis := assess_feasibility total_monthly_sip_needed monthly_income,
        optimization_suggestions := optimize_goals analyzed_goals monthly_income })

/-- The default request list built by `generate_default_goals`
(lines 476-511), in append order. -/
def generate_default_requests (monthly_income : ℚ) : List GoalRequest :=
  [ { name := some "Emergency Fund", amount := some (monthly_income * 6),
      time_years := some 2, current_savings := some 0 } ] ++
  (if 50000 ≤ monthly_income then
    [ { name := some "House Purchase", amount := some (monthly_income * 60),
        time_years := some 10, current_savings := some 0 } ]
  else []) ++
  (if 30000 ≤ monthly_income then
    [ { name := some "Car Purchase", amount := some (monthly_income * 8),
        time_years := some 5, current_savings := some 0 } ]
  else []) ++
  [ { name := some "Retirement Corpus", amount := some (monthly_income * 300),
      time_years := some 25, current_savings := some 0 } ]

/-- `generate_default_goals` (lines 476-513). The Python body ends with
`return self.analyze_goals(default_goals, monthly_income)`; the default
list is never empty, so that call always takes the non-empty branch of
`analyze_goals`, embedded here directly (the equivalence with a call to
`analyze_goals` is proved in the C7 theorem). -/
def generate_default_goals (monthly_income : ℚ) : Option GoalPortfolio :=
  analyzeGoalsCore (generate_default_requests monthly_income) monthly_income 0

/-- `analyze_goals` (lines 95-129): an empty goal list falls back to the
generated defaults (dropping the `current_savings` argument, exactly as the
Python call `self.generate_default_goals(monthly_income)` does). -/
def analyze_goals (user_goals : List GoalRequest)
    (monthly_income current_savings : ℚ) : Option GoalPortfolio :=
  if user_goals = [] then generate_default_goals monthly_income
  else analyzeGoalsCore user_goals monthly_income current_savings

/-! ### General lemmas about the engine -/

/-- Every expected return the engine can produce is at least 4 percent:
the base table values are at least 5 and the short-horizon adjustment
subtracts at most 1. -/
theorem get_expected_return_ge_four (investment_type : String) (time_horizon : ℕ) :
    4 ≤ get_expected_return investment_type time_horizon := by
  unfold get_expected_return
  split_ifs <;> norm_num

theorem returnOf_pos (goal : GoalRequest) : 0 < returnOf goal :=
  lt_of_lt_of_le (by norm_num) (get_expected_return_ge_four _ _)

theorem remainingOf_nonneg (goal : GoalRequest) (monthly_income current_savings : ℚ) :
    0 ≤ remainingOf goal monthly_income current_savings :=
  le_max_left 0 _

/-- The strategy tag computed for any request is one of the five catalog
strategy keys. -/
theorem strategyOf_mem (goal : GoalRequest) :
    strategyOf goal = "liquid" ∨ strategyOf goal = "conservative" ∨
    strategyOf goal = "moderate" ∨ strategyOf goal = "hybrid" ∨
    strategyOf goal = "aggressive" := by
  unfold strategyOf determine_investment_strategy
  cases htpl : templateOf goal with
  | none => split_ifs <;> simp
  | some t =>
    have hfind := htpl
    unfold templateOf resolveTemplate at hfind
    rcases Option.map_eq_some'.mp hfind with ⟨p, hp, hpt⟩
    have hmem := List.mem_of_find?_eq_some hp
    subst hpt
    fin_cases hmem <;> simp

/-- The `investment_recommendations` lookup inside `analyze_single_goal`
always succeeds. -/
theorem lookupRecommendation_strategyOf_isSome (goal : GoalRequest) :
    (lookupRecommendation (strategyOf goal)).isSome = true := by
  rcases strategyOf_mem goal with h | h | h | h | h <;> rw [h] <;> rfl

theorem analyze_single_goal_isSome (goal : GoalRequest)
    (monthly_income current_savings : ℚ) :
    (analyze_single_goal goal monthly_income current_savings).isSome = true := by
  unfold analyze_single_goal
  cases hl : lookupRecommendation (strategyOf goal) with
  | none =>
    have hs := lookupRecommendation_strategyOf_isSome goal
    rw [hl] at hs
    simp at hs
  | some rec => simp [hl]

/-- Field-level description of a successful `analyze_single_goal` result. -/
theorem analyze_single_goal_fields {goal : GoalRequest}
    {monthly_income current_savings : ℚ} {a : AnalyzedGoal}
    (h : analyze_single_goal goal monthly_income current_savings = some a) :
    a.name = goal.name.getD "Custom Goal" ∧
    a.target_amount = targetOf goal monthly_income ∧
    a.time_horizon_years = horizonOf goal ∧
    a.current_corpus = corpusOf goal current_savings ∧
    a.remaining_amount = remainingOf goal monthly_income current_savings ∧
    a.monthly_sip_required = sipOf goal monthly_income current_savings ∧
    a.expected_return = returnOf goal ∧
    a.investment_strategy = strategyOf goal ∧
    a.feasibility_score =
      calculate_feasibility_score (sipOf goal monthly_income current_savings)
        monthly_income := by
  rcases Option.map_eq_some'.mp h with ⟨rec, hrec, hmk⟩
  subst hmk
  exact ⟨rfl, rfl, rfl, rfl, rfl, rfl, rfl, rfl, rfl⟩

/-! ### Lemmas about the SIP formula -/

theorem monthlyRate_pos {annual_return : ℚ} (h : 0 < annual_return) :
    0 < annual_return / 12 / 100 := by positivity

theorem sip_denom_pos {annual_return : ℚ} (h : 0 < annual_return) {n : ℕ}
    (hn : n ≠ 0) : 0 < (1 + annual_return / 12 / 100) ^ n - 1 := by
  have hm := monthlyRate_pos h
  have : (1:ℚ) < (1 + annual_return / 12 / 100) ^ n :=
    one_lt_pow₀ (by linarith) hn
  linarith

/-- In the formula branch, `calculate_sip_amount` is the rounded raw SIP. -/
theorem calculate_sip_amount_of_pos {annual_return : ℚ} (h : 0 < annual_return)
    {years : ℕ} (hy : 0 < years) (target_amount : ℚ) :
    calculate_sip_amount target_amount annual_return years =
      pyRound2 (sipRaw target_amount annual_return years) := by
  unfold calculate_sip_amount
  rw [if_neg]
  push_neg
  exact ⟨h, Nat.pos_iff_ne_zero.mp hy⟩

theorem sipRaw_nonneg {target_amount annual_return : ℚ} (ht : 0 ≤ target_amount)
    (h : 0 < annual_return) {years : ℕ} (hy : 0 < years) :
    0 ≤ sipRaw target_amount annual_return years := by
  unfold sipRaw
  have hd := sip_denom_pos h (n := years * 12) (by positivity)
  have hm := monthlyRate_pos h
  positivity

/-- Monotonicity in the target, fixed return and years. -/
theorem sipRaw_mono_target {annual_return : ℚ} (h : 0 < annual_return)
    {years : ℕ} (hy : 0 < years) {t₁ t₂ : ℚ} (ht : t₁ ≤ t₂) :
    sipRaw t₁ annual_return years ≤ sipRaw t₂ annual_return years := by
  unfold sipRaw
  have hd := sip_denom_pos h (n := years * 12) (by positivity)
  have hm := monthlyRate_pos h
  gcongr

/-- Antitonicity in the years, fixed target and return. -/
theorem sipRaw_anti_years {target_amount annual_return : ℚ} (ht : 0 ≤ target_amount)
    (h : 0 < annual_return) {y₁ y₂ : ℕ} (hy₁ : 0 < y₁) (hy : y₁ ≤ y₂) :
    sipRaw target_amount annual_return y₂ ≤ sipRaw target_amount annual_return y₁ := by
  unfold sipRaw
  have hm := monthlyRate_pos h
  have hd₁ := sip_denom_pos h (n := y₁ * 12) (by positivity)
  have hpow : (1 + annual_return / 12 / 100) ^ (y₁ * 12) ≤
      (1 + annual_return / 12 / 100) ^ (y₂ * 12) :=
    pow_le_pow_right₀ (by linarith) (by omega)
  have hd₂ : (1 + annual_return / 12 / 100) ^ (y₁ * 12) - 1 ≤
      (1 + annual_return / 12 / 100) ^ (y₂ * 12) - 1 := by linarith
  exact div_le_div_of_nonneg_left (by positivity) hd₁ hd₂

/-- Antitonicity in the return, fixed target and years: rewriting the
denominator with the geometric sum shows the raw SIP falls as the return
rises. -/
theorem sipRaw_anti_return {target_amount : ℚ} (ht : 0 ≤ target_amount)
    {r₁ r₂ : ℚ} (h₁ : 0 < r₁) (h₂ : r₁ ≤ r₂) {years : ℕ} (hy : 0 < years) :
    sipRaw target_amount r₂ years ≤ sipRaw target_amount r₁ years := by
  have h₂' : 0 < r₂ := lt_of_lt_of_le h₁ h₂
  have hm₁ := monthlyRate_pos h₁
  have hm₂ := monthlyRate_pos h₂'
  have hd₁ := sip_denom_pos h₁ (n := years * 12) (by positivity)
  have hd₂ := sip_denom_pos h₂' (n := years * 12) (by positivity)
  unfold sipRaw
  rw [div_le_div_iff₀ hd₂ hd₁]
  have hgeom : ∀ r : ℚ, (1 + r / 12 / 100) ^ (years * 12) - 1 =
      r / 12 / 100 * ∑ i in Finset.range (years * 12), (1 + r / 12 / 100) ^ i := by
    intro r
    have := geom_sum_mul (1 + r / 12 / 100) (years * 12)
    have h' : (1 + r / 12 / 100) - 1 = r / 12 / 100 := by ring
    rw [h'] at this
    linarith [this]
  rw [hgeom r₁, hgeom r₂]
  have hsum : ∑ i in Finset.range (years * 12), (1 + r₁ / 12 / 100) ^ i ≤
      ∑ i in Finset.range (years * 12), (1 + r₂ / 12 / 100) ^ i := by
    apply Finset.sum_le_sum
    intro i _
    exact pow_le_pow_left₀ (by linarith) (by linarith) i
  have hmle : r₁ / 12 / 100 ≤ r₂ / 12 / 100 := by linarith
  calc target_amount * (r₂ / 12 / 100) *
        (r₁ / 12 / 100 * ∑ i in Finset.range (years * 12), (1 + r₁ / 12 / 100) ^ i)
      = target_amount * (r₁ / 12 / 100 * (r₂ / 12 / 100)) *
        (∑ i in Finset.range (years * 12), (1 + r₁ / 12 / 100) ^ i) := by ring
    _ ≤ target_amount * (r₁ / 12 / 100 * (r₂ / 12 / 100)) *
        (∑ i in Finset.range (years * 12), (1 + r₂ / 12 / 100) ^ i) := by
        apply mul_le_mul_of_nonneg_left hsum
        positivity
    _ = target_amount * (r₁ / 12 / 100) *
        (r₂ / 12 / 100 * ∑ i in Finset.range (years * 12), (1 + r₂ / 12 / 100) ^ i) := by
        ring

/-- Rounded version of the years-antitonicity. -/
theorem calculate_sip_amount_anti_years {target_amount annual_return : ℚ}
    (ht : 0 ≤ target_amount) (h : 0 < annual_return) {y₁ y₂ : ℕ}
    (hy₁ : 0 < y₁) (hy : y₁ ≤ y₂) :
    calculate_sip_amount target_amount annual_return y₂ ≤
      calculate_sip_amount target_amount annual_return y₁ := by
  rw [calculate_sip_amount_of_pos h hy₁,
    calculate_sip_amount_of_pos h (lt_of_lt_of_le hy₁ hy)]
  exact pyRound2_mono (sipRaw_anti_years ht h hy₁ hy)

/-- A two-year SIP never exceeds the target itself: the raw SIP is at most
`target / 24` by Bernoulli's inequality, and the half-cent rounding slack
cannot make up the difference. -/
theorem calculate_sip_amount_two_le_self {target_amount annual_return : ℚ}
    (ht : 0 ≤ target_amount) (h : 0 < annual_return) :
    calculate_sip_amount target_amount annual_return 2 ≤ target_amount := by
  rw [calculate_sip_amount_of_pos h (by norm_num)]
  have hm := monthlyRate_pos h
  have hd := sip_denom_pos h (n := 2 * 12) (by norm_num)
  have hx0 : 0 ≤ sipRaw target_amount annual_return 2 :=
    sipRaw_nonneg ht h (by norm_num)
  have hbern : 1 + (24:ℚ) * (annual_return / 12 / 100) ≤
      (1 + annual_return / 12 / 100) ^ (24:ℕ) := by
    have := one_add_mul_le_pow (a := annual_return / 12 / 100) (by linarith) 24
    calc 1 + (24:ℚ) * (annual_return / 12 / 100)
        = 1 + ((24:ℕ):ℚ) * (annual_return / 12 / 100) := by norm_num
      _ ≤ (1 + annual_return / 12 / 100) ^ (24:ℕ) := this
  have hx_le : sipRaw target_amount annual_return 2 ≤ target_amount / 24 := by
    unfold sipRaw
    have h24 : (0:ℚ) < 24 * (annual_return / 12 / 100) := by positivity
    have hden : 24 * (annual_return / 12 / 100) ≤
        (1 + annual_return / 12 / 100) ^ (2 * 12) - 1 := by
      have h2412 : (2 * 12 : ℕ) = 24 := by norm_num
      rw [h2412]
      linarith
    calc target_amount * (annual_return / 12 / 100) /
          ((1 + annual_return / 12 / 100) ^ (2 * 12) - 1)
        ≤ target_amount * (annual_return / 12 / 100) /
          (24 * (annual_return / 12 / 100)) :=
          div_le_div_of_nonneg_left (by positivity) h24 hden
      _ = target_amount / 24 := by
          field_simp
          ring
  rcases lt_or_le (sipRaw target_amount annual_return 2) (1/200) with hsmall | hbig
  · rw [pyRound2_eq_zero_of_small hx0 hsmall]
    exact ht
  · have ht' : 3/25 ≤ target_amount := by linarith
    have := pyRound2_le (sipRaw target_amount annual_return 2)
    linarith

/-! ### Concrete requests used by counterexamples and witnesses -/

/-- A request whose name matches no catalog key and carries no amount. -/
def xyzReq : GoalRequest :=
  { name := some "xyz gadget", amount := none, time_years := some 3,
    current_savings := none }

/-- An immediate (zero-horizon), already fully funded goal. -/
def plotReq : GoalRequest :=
  { name := some "plot", amount := some 100, time_years := some 0,
    current_savings := some 250 }

theorem plotReq_isSome : (analyze_single_goal plotReq 1000 0).isSome = true := rfl

/-- The analysis result for `plotReq`. -/
def plotGoal : AnalyzedGoal := (analyze_single_goal plotReq 1000 0).get plotReq_isSome

/-! ### Claim theorems -/

/-- C2 (counterexample): a goal request with no amount and a name matching
no template ("xyz gadget") does not fail: `analyze_single_goal` returns a
result whose `target_amount` is 0. No `MissingGoalAmount` error exists
anywhere in the code. -/
theorem analyze_no_amount_no_template_returns_result :
    ((analyze_single_goal xyzReq 50000 0).map fun a => a.target_amount) = some 0 := rfl

/-- C2 (amended): whenever the requested amount is absent or zero and the
goal name resolves to no template, `analyze_single_goal` still returns a
populated result, with `target_amount = 0`; it never signals a missing
amount. -/
theorem analyze_no_amount_no_template_target_zero (goal : GoalRequest)
    (monthly_income current_savings : ℚ) (h1 : goal.amount.getD 0 = 0)
    (h2 : (templateOf goal).isNone = true) :
    ∃ a, analyze_single_goal goal monthly_income current_savings = some a ∧
      a.target_amount = 0 := by
  obtain ⟨a, ha⟩ := Option.isSome_iff_exists.mp
    (analyze_single_goal_isSome goal monthly_income current_savings)
  refine ⟨a, ha, ?_⟩
  obtain ⟨-, htgt, -, -, -, -, -, -, -⟩ := analyze_single_goal_fields ha
  rw [htgt]
  unfold targetOf
  rw [Option.isNone_iff_eq_none.mp h2, h1]

/-- C2 (witness for the amended theorem). -/
theorem analyze_no_amount_no_template_target_zero_witness :
    xyzReq.amount.getD 0 = 0 ∧ (templateOf xyzReq).isNone = true ∧
    (∃ a, analyze_single_goal xyzReq 50000 0 = some a ∧ a.target_amount = 0) :=
  ⟨rfl, rfl, analyze_no_amount_no_template_target_zero xyzReq 50000 0 rfl rfl⟩

/-- C4: the per-goal feasibility score lies in {0,20,40,60,80,100}, is
determined solely by the ratio `monthly_sip / monthly_income`, is
non-increasing as that ratio grows, and follows the claimed bands. -/
theorem feasibility_score_band_properties (monthly_sip monthly_income : ℚ)
    (hs : 0 ≤ monthly_sip) (hi : 0 < monthly_income) :
    (calculate_feasibility_score monthly_sip monthly_income ∈
      ([0, 20, 40, 60, 80, 100] : List ℕ)) ∧
    (∀ s₂ i₂ : ℚ, 0 < i₂ → monthly_sip / monthly_income = s₂ / i₂ →
      calculate_feasibility_score monthly_sip monthly_income =
        calculate_feasibility_score s₂ i₂) ∧
    (∀ s₂ i₂ : ℚ, 0 < i₂ → monthly_sip / monthly_income ≤ s₂ / i₂ →
      calculate_feasibility_score s₂ i₂ ≤
        calculate_feasibility_score monthly_sip monthly_income) ∧
    (monthly_sip / monthly_income ≤ 5/100 →
      calculate_feasibility_score monthly_sip monthly_income = 100) ∧
    (5/100 < monthly_sip / monthly_income → monthly_sip / monthly_income ≤ 10/100 →
      calculate_feasibility_score monthly_sip monthly_income = 80) ∧
    (10/100 < monthly_sip / monthly_income → monthly_sip / monthly_income ≤ 15/100 →
      calculate_feasibility_score monthly_sip monthly_income = 60) ∧
    (15/100 < monthly_sip / monthly_income → monthly_sip / monthly_income ≤ 20/100 →
      calculate_feasibility_score monthly_sip monthly_income = 40) ∧
    (20/100 < monthly_sip / monthly_income → monthly_sip / monthly_income ≤ 25/100 →
      calculate_feasibility_score monthly_sip monthly_income = 20) ∧
    (25/100 < monthly_sip / monthly_income →
      calculate_feasibility_score monthly_sip monthly_income = 0) := by
  have anti : ∀ s₁ i₁ s₂ i₂ : ℚ, s₁ / i₁ ≤ s₂ / i₂ →
      calculate_feasibility_score s₂ i₂ ≤ calculate_feasibility_score s₁ i₁ := by
    intro s₁ i₁ s₂ i₂ h
    simp only [calculate_feasibility_score]
    have h100 : s₁ / i₁ * 100 ≤ s₂ / i₂ * 100 := by linarith
    split_ifs <;> first | omega | (exfalso; linarith)
  refine ⟨?_, ?_, ?_, ?_, ?_, ?_, ?_, ?_, ?_⟩
  · simp only [calculate_feasibility_score]
    split_ifs <;> simp
  · intro s₂ i₂ _ h
    exact le_antisymm (anti _ _ _ _ h.ge) (anti _ _ _ _ h.le)
  · intro s₂ i₂ _ h
    exact anti _ _ _ _ h
  all_goals
    intros
    simp only [calculate_feasibility_score]
    split_ifs <;> first | rfl | (exfalso; linarith)

/-- C4 (witness). -/
theorem feasibility_score_band_properties_witness :
    (0:ℚ) ≤ 50 ∧ (0:ℚ) < 1000 ∧
    calculate_feasibility_score 50 1000 ∈ ([0, 20, 40, 60, 80, 100] : List ℕ) :=
  ⟨by norm_num, by norm_num,
    (feasibility_score_band_properties 50 1000 (by norm_num) (by norm_num)).1⟩

/-- C8: for any successfully analyzed goal, a zero time horizon makes the
required monthly SIP equal to the remaining amount, and a corpus already
covering the target makes both the remaining amount and the SIP zero. -/
theorem analyze_single_goal_boundary (goal : GoalRequest)
    (monthly_income current_savings : ℚ) (a : AnalyzedGoal)
    (h : analyze_single_goal goal monthly_income current_savings = some a) :
    (a.time_horizon_years = 0 → a.monthly_sip_required = a.remaining_amount) ∧
    (a.target_amount ≤ a.current_corpus →
      a.remaining_amount = 0 ∧ a.monthly_sip_required = 0) := by
  obtain ⟨-, htgt, hhor, hcorp, hrem, hsip, hret, -, -⟩ :=
    analyze_single_goal_fields h
  constructor
  · intro h0
    rw [hhor] at h0
    rw [hsip, hrem, sipOf, if_pos h0]
  · intro hcov
    rw [htgt, hcorp] at hcov
    have hrem0 : remainingOf goal monthly_income current_savings = 0 := by
      unfold remainingOf
      exact max_eq_left (sub_nonpos.mpr hcov)
    refine ⟨by rw [hrem, hrem0], ?_⟩
    rw [hsip, sipOf, hrem0]
    by_cases h0 : horizonOf goal = 0
    · rw [if_pos h0]
    · rw [if_neg h0,
        calculate_sip_amount_of_pos (returnOf_pos goal) (Nat.pos_of_ne_zero h0)]
      have hraw : sipRaw 0 (returnOf goal) (horizonOf goal) = 0 := by
        unfold sipRaw
        rw [zero_mul, zero_div]
      rw [hraw, pyRound2_zero]

/-- C8 (witness): an immediate, fully funded goal. -/
theorem analyze_single_goal_boundary_witness :
    analyze_single_goal plotReq 1000 0 = some plotGoal ∧
    ((plotGoal.time_horizon_years = 0 →
      plotGoal.monthly_sip_required = plotGoal.remaining_amount) ∧
     (plotGoal.target_amount ≤ plotGoal.current_corpus →
      plotGoal.remaining_amount = 0 ∧ plotGoal.monthly_sip_required = 0)) :=
  ⟨(Option.some_get plotReq_isSome).symm,
    analyze_single_goal_boundary plotReq 1000 0 plotGoal
      (Option.some_get plotReq_isSome).symm⟩

/-- C9: with the horizon fixed and positive, the required SIP is
non-decreasing in the target (fixed positive return) and non-increasing in
the return over (0, 100] (fixed non-negative target). -/
theorem calculate_sip_amount_monotone (years : ℕ) (hy : 0 < years) :
    (∀ t₁ t₂ annual_return : ℚ, 0 < annual_return → t₁ ≤ t₂ →
      calculate_sip_amount t₁ annual_return years ≤
        calculate_sip_amount t₂ annual_return years) ∧
    (∀ target r₁ r₂ : ℚ, 0 ≤ target → 0 < r₁ → r₁ ≤ r₂ → r₂ ≤ 100 →
      calculate_sip_amount target r₂ years ≤
        calculate_sip_amount target r₁ years) := by
  constructor
  · intro t₁ t₂ annual_return hr ht
    rw [calculate_sip_amount_of_pos hr hy, calculate_sip_amount_of_pos hr hy]
    exact pyRound2_mono (sipRaw_mono_target hr hy ht)
  · intro target r₁ r₂ ht h₁ h₂ _
    rw [calculate_sip_amount_of_pos h₁ hy,
      calculate_sip_amount_of_pos (lt_of_lt_of_le h₁ h₂) hy]
    exact pyRound2_mono (sipRaw_anti_return ht h₁ h₂ hy)

/-- C9 (witness). -/
theorem calculate_sip_amount_monotone_witness :
    0 < (1:ℕ) ∧ calculate_sip_amount 100 5 1 ≤ calculate_sip_amount 200 5 1 :=
  ⟨by norm_num,
    (calculate_sip_amount_monotone 1 (by norm_num)).1 100 200 5
      (by norm_num) (by norm_num)⟩

/-- C5: the aggregate feasibility status follows the 15/25/35 percent
bands of income, and in particular a total SIP of 30 percent of income is
"Challenging but Possible" while 40 percent is "Needs Restructuring". -/
theorem assess_feasibility_bands (total_sip monthly_income : ℚ)
    (hi : 0 < monthly_income) :
    (total_sip ≤ 15/100 * monthly_income →
      (assess_feasibility total_sip monthly_income).status = "Highly Feasible") ∧
    (15/100 * monthly_income < total_sip → total_sip ≤ 25/100 * monthly_income →
      (assess_feasibility total_sip monthly_income).status =
        "Feasible with Discipline") ∧
    (25/100 * monthly_income < total_sip → total_sip ≤ 35/100 * monthly_income →
      (assess_feasibility total_sip monthly_income).status =
        "Challenging but Possible") ∧
    (35/100 * monthly_income < total_sip →
      (assess_feasibility total_sip monthly_income).status =
        "Needs Restructuring") ∧
    (assess_feasibility (30/100 * monthly_income) monthly_income).status =
      "Challenging but Possible" ∧
    (assess_feasibility (40/100 * monthly_income) monthly_income).status =
      "Needs Restructuring" := by
  have h15 : total_sip / monthly_income * 100 ≤ 15 ↔
      total_sip ≤ 15/100 * monthly_income := by
    rw [div_mul_eq_mul_div, div_le_iff hi]
    constructor <;> intro h <;> linarith
  have h25 : total_sip / monthly_income * 100 ≤ 25 ↔
      total_sip ≤ 25/100 * monthly_income := by
    rw [div_mul_eq_mul_div, div_le_iff hi]
    constructor <;> intro h <;> linarith
  have h35 : total_sip / monthly_income * 100 ≤ 35 ↔
      total_sip ≤ 35/100 * monthly_income := by
    rw [div_mul_eq_mul_div, div_le_iff hi]
    constructor <;> intro h <;> linarith
  have h30 : (30/100 * monthly_income) / monthly_income * 100 = 30 := by
    rw [mul_div_assoc, div_self (ne_of_gt hi)]
    norm_num
  have h40 : (40/100 * monthly_income) / monthly_income * 100 = 40 := by
    rw [mul_div_assoc, div_self (ne_of_gt hi)]
    norm_num
  refine ⟨?_, ?_, ?_, ?_, ?_, ?_⟩
  · intro h
    simp only [assess_feasibility]
    rw [if_pos (h15.mpr h)]
  · intro h1 h2
    simp only [assess_feasibility]
    rw [if_neg (fun hc => absurd (h15.mp hc) (not_le.mpr h1)),
      if_pos (h25.mpr h2)]
  · intro h1 h2
    simp only [assess_feasibility]
    rw [if_neg (fun hc => absurd (h15.mp hc) (not_le.mpr (by linarith))),
      if_neg (fun hc => absurd (h25.mp hc) (not_le.mpr h1)),
      if_pos (h35.mpr h2)]
  · intro h1
    simp only [assess_feasibility]
    rw [if_neg (fun hc => absurd (h15.mp hc) (not_le.mpr (by linarith))),
      if_neg (fun hc => absurd (h25.mp hc) (not_le.mpr (by linarith))),
      if_neg (fun hc => absurd (h35.mp hc) (not_le.mpr h1))]
  · simp only [assess_feasibility, h30]
    norm_num
  · simp only [assess_feasibility, h40]
    norm_num

/-- C5 (witness). -/
theorem assess_feasibility_bands_witness :
    (0:ℚ) < 1000 ∧
    ((100:ℚ) ≤ 15/100 * 1000 →
      (assess_feasibility 100 1000).status = "Highly Feasible") ∧
    (assess_feasibility (30/100 * 1000) 1000).status = "Challenging but Possible" ∧
    (assess_feasibility (40/100 * 1000) 1000).status = "Needs Restructuring" := by
  have h := assess_feasibility_bands 100 1000 (by norm_num)
  exact ⟨by norm_num, h.1, h.2.2.2.2.1, h.2.2.2.2.2⟩

/-- C7: an empty goal list routes through `generate_default_goals`, which
builds the income-dependent default request list and sends it back through
the same analysis pipeline; at income 20000 only the Emergency Fund and
Retirement Corpus survive the thresholds. -/
theorem analyze_goals_empty_uses_defaults (monthly_income current_savings : ℚ) :
    analyze_goals [] monthly_income current_savings =
      generate_default_goals monthly_income ∧
    generate_default_goals monthly_income =
      analyze_goals (generate_default_requests monthly_income) monthly_income 0 ∧
    generate_default_requests monthly_income =
      [ { name := some "Emergency Fund", amount := some (monthly_income * 6),
          time_years := some 2, current_savings := some 0 } ] ++
      (if 50000 ≤ monthly_income then
        [ { name := some "House Purchase", amount := some (monthly_income * 60),
            time_years := some 10, current_savings := some 0 } ]
      else []) ++
      (if 30000 ≤ monthly_income then
        [ { name := some "Car Purchase", amount := some (monthly_income * 8),
            time_years := some 5, current_savings := some 0 } ]
      else []) ++
      [ { name := some "Retirement Corpus", amount := some (monthly_income * 300),
          time_years := some 25, current_savings := some 0 } ] ∧
    generate_default_requests 20000 =
      [ { name := some "Emergency Fund", amount := some 120000,
          time_years := some 2, current_savings := some 0 },
        { name := some "Retirement Corpus", amount := some 6000000,
          time_years := some 25, current_savings := some 0 } ] := by
  refine ⟨by simp [analyze_goals], ?_, rfl, ?_⟩
  · have hne : generate_default_requests monthly_income ≠ [] := by
      unfold generate_default_requests
      simp
    unfold analyze_goals
    rw [if_neg hne]
    rfl
  · norm_num [generate_default_requests]

/-- C10: every analysis succeeds, its strategy tag is one of the five
catalog keys, and the recommendation-table lookup on that tag cannot miss
(the five tags are exactly the table keys). -/
theorem analyze_single_goal_strategy_safe (goal : GoalRequest)
    (monthly_income current_savings : ℚ) :
    ∃ a, analyze_single_goal goal monthly_income current_savings = some a ∧
      (a.investment_strategy = "liquid" ∨ a.investment_strategy = "conservative" ∨
       a.investment_strategy = "moderate" ∨ a.investment_strategy = "hybrid" ∨
       a.investment_strategy = "aggressive") ∧
      (lookupRecommendation a.investment_strategy).isSome = true ∧
      investment_recommendations.map Prod.fst =
        ["liquid", "conservative", "moderate", "hybrid", "aggressive"] := by
  obtain ⟨a, ha⟩ := Option.isSome_iff_exists.mp
    (analyze_single_goal_isSome goal monthly_income current_savings)
  obtain ⟨-, -, -, -, -, -, -, hstr, -⟩ := analyze_single_goal_fields ha
  refine ⟨a, ha, ?_, ?_, rfl⟩
  · rw [hstr]
    exact strategyOf_mem goal
  · rw [hstr]
    exact lookupRecommendation_strategyOf_isSome goal

/-- The request of spec Scenario 1, name spelled "Emergency Fund". -/
def efReq : GoalRequest :=
  { name := some "Emergency Fund", amount := none, time_years := some 2,
    current_savings := none }

/-- The Scenario 1 request with a name that actually matches the catalog
key "emergency_fund" under the bidirectional substring test. -/
def emReq : GoalRequest :=
  { name := some "Emergency", amount := none, time_years := some 2,
    current_savings := none }

/-- C1 (counterexample): the goal name "Emergency Fund" lowercases to
"emergency fund", which neither contains nor is contained in the
underscored catalog key "emergency_fund"; no template resolves, so the
analyzed target is 0, not 300000. -/
theorem emergency_fund_spaced_name_no_template :
    ((analyze_single_goal efReq 50000 0).map fun a => a.target_amount) = some 0 ∧
    (resolveTemplate (pyLower "Emergency Fund")).isNone = true :=
  ⟨rfl, rfl⟩

/-- C1 (amended): for income 50000 and the goal named "Emergency"
(a substring of the catalog key, so the template resolves) over 2 years
with no amount, the analysis returns target 300000 = 6 times income,
remaining 300000, and a monthly SIP of `calculate_sip_amount 300000 5 2`. -/
theorem emergency_goal_analysis_scenario :
    (templateOf emReq).isSome = true ∧
    ((analyze_single_goal emReq 50000 0).map fun a =>
      (a.target_amount, a.remaining_amount, a.monthly_sip_required)) =
      some (300000, 300000, calculate_sip_amount 300000 5 2) := by
  refine ⟨rfl, ?_⟩
  have htpl : templateOf emReq =
      some { typical_amount := fun income => income * 6, time_horizon := 1,
             priority := "critical", investment_type := "liquid",
             expected_return := 5 } := rfl
  have hstr : strategyOf emReq = "liquid" := rfl
  have hlook : lookupRecommendation "liquid" =
      some { allocation := { liquid := 80, debt := 20, equity := 0 },
             instruments := ["Liquid Funds", "Ultra Short Duration Funds",
               "Savings Account"],
             risk_level := "Very Low" } := rfl
  have hhor : horizonOf emReq = 2 := rfl
  have hret : returnOf emReq = 5 := rfl
  have htgt : targetOf emReq 50000 = 300000 := by
    simp only [targetOf, htpl]
    norm_num [emReq]
  have hcorp : corpusOf emReq 0 = 0 := rfl
  have hrem : remainingOf emReq 50000 0 = 300000 := by
    simp only [remainingOf, htgt, hcorp]
    norm_num [max_def]
  have hsip : sipOf emReq 50000 0 =
      calculate_sip_amount 300000 5 2 := by
    simp only [sipOf, hhor, hrem, hret]
    norm_num
  simp only [analyze_single_goal, hstr, hlook, Option.map_some']
  simp only [htgt, hrem, hsip]

/-- C3 (counterexample): at target 120000, return 12 percent, one year,
the round trip `calculate_future_value (calculate_sip_amount ..) ..`
exceeds the target by 1199.94, far beyond the claimed 1e-6 relative
tolerance (0.12). -/
theorem sip_fv_roundtrip_tolerance_violated :
    (1/1000000 : ℚ) * 120000 <
      |calculate_future_value (calculate_sip_amount 120000 12 1) 12 1 - 120000| := by
  have h : calculate_future_value (calculate_sip_amount 120000 12 1) 12 1 - 120000
      = 59997/50 := by
    norm_num [calculate_future_value, calculate_sip_amount, pyRound2, roundHalfEven,
      sipRaw, fvRaw]
  rw [h, abs_of_pos (by norm_num : (0:ℚ) < 59997/50)]
  norm_num

/-- C3 (amended): the two annuity formulas are not mutual inverses.
`calculate_sip_amount` solves the ordinary annuity while
`calculate_future_value` carries the extra annuity-due factor, so before
the 2-decimal roundings the round trip equals
`target * (1 + annual_return/12/100)` exactly -- one month of growth above
the target, not within 1e-6 of it. -/
theorem sip_fv_roundtrip_exact (target annual_return : ℚ) (years : ℕ)
    (hy : 0 < years) (hr : 0 < annual_return) :
    fvRaw (sipRaw target annual_return years) annual_return years =
      target * (1 + annual_return / 12 / 100) := by
  have hm' : annual_return / 12 / 100 ≠ 0 := ne_of_gt (monthlyRate_pos hr)
  have hd' : (1 + annual_return / 12 / 100) ^ (years * 12) - 1 ≠ 0 :=
    ne_of_gt (sip_denom_pos hr (by positivity))
  unfold fvRaw sipRaw
  set m := annual_return / 12 / 100 with hm_def
  set D := (1 + m) ^ (years * 12) - 1 with hD_def
  have h1 : target * m / D * (D / m) = target := by
    field_simp
  rw [h1]

/-- C3 (witness for the amended theorem). -/
theorem sip_fv_roundtrip_exact_witness :
    0 < (1:ℕ) ∧ (0:ℚ) < 12 ∧
    fvRaw (sipRaw 100 12 1) 12 1 = 100 * (1 + 12 / 12 / 100) :=
  ⟨by norm_num, by norm_num,
    sip_fv_roundtrip_exact 100 12 1 (by norm_num) (by norm_num)⟩

/-- C6 (amended): every analyzed goal with feasibility score below 60
yields a timeline-extension suggestion for its original horizon plus two
years, whose recomputed SIP is at most (not always strictly below) the
original monthly SIP. -/
theorem optimize_goals_timeline_extension (goal : GoalRequest)
    (monthly_income current_savings optimizer_income : ℚ) (a : AnalyzedGoal)
    (goals : List AnalyzedGoal) (hinc : 0 < optimizer_income)
    (ha : analyze_single_goal goal monthly_income current_savings = some a)
    (hmem : a ∈ goals) (hscore : a.feasibility_score < 60) :
    Suggestion.timeline_extension a.name a.time_horizon_years
        (a.time_horizon_years + 2)
        (calculate_sip_amount a.remaining_amount a.expected_return
          (a.time_horizon_years + 2))
        "Extend timeline by 2 years to reduce monthly SIP burden"
      ∈ optimize_goals goals optimizer_income ∧
    calculate_sip_amount a.remaining_amount a.expected_return
        (a.time_horizon_years + 2) ≤ a.monthly_sip_required := by
  obtain ⟨-, -, hhor, -, hrem, hsip, hret, -, -⟩ := analyze_single_goal_fields ha
  constructor
  · simp only [optimize_goals]
    have hfilt : a ∈ goals.filter (fun g => g.feasibility_score < 60) := by
      rw [List.mem_filter]
      exact ⟨hmem, by simpa using hscore⟩
    have hmap := List.mem_map_of_mem (fun g =>
      Suggestion.timeline_extension g.name g.time_horizon_years
        (g.time_horizon_years + 2)
        (calculate_sip_amount g.remaining_amount g.expected_return
          (g.time_horizon_years + 2))
        "Extend timeline by 2 years to reduce monthly SIP burden") hfilt
    simp only [List.mem_append]
    exact Or.inl (Or.inr hmap)
  · rw [hsip, hrem, hret, hhor]
    by_cases h0 : horizonOf goal = 0
    · rw [sipOf, if_pos h0, h0]
      simpa using calculate_sip_amount_two_le_self
        (remainingOf_nonneg goal monthly_income current_savings)
        (returnOf_pos goal)
    · rw [sipOf, if_neg h0]
      exact calculate_sip_amount_anti_years
        (remainingOf_nonneg goal monthly_income current_savings)
        (returnOf_pos goal) (Nat.pos_of_ne_zero h0) (by omega)

/-- A small goal (0.40 over 3 years) against a tiny income (0.03): both the
original and the extended-horizon SIP round to the same 0.01. -/
def gzReq : GoalRequest :=
  { name := some "gizmo", amount := some (2/5), time_years := some 3,
    current_savings := some 0 }

/-- C6 (counterexample): for the analyzed goal of `gzReq` at income 3/100
the feasibility score is 0 (< 60) and the required monthly SIP is 1/100,
yet the SIP recomputed for the extended horizon 3 + 2 is also exactly
1/100 -- equal to, not strictly less than, the original. -/
theorem timeline_extension_not_strictly_smaller :
    ((analyze_single_goal gzReq (3/100) 0).map fun a =>
      (a.feasibility_score, a.monthly_sip_required, a.remaining_amount,
       a.expected_return, a.time_horizon_years)) = some (0, 1/100, 2/5, 7, 3) ∧
    calculate_sip_amount (2/5) 7 (3 + 2) = 1/100 := by
  constructor
  · have hstr : strategyOf gzReq = "conservative" := rfl
    have hlook : lookupRecommendation "conservative" =
        some { allocation := { liquid := 20, debt := 60, equity := 20 },
               instruments := ["Short Duration Funds", "Conservative Hybrid Funds",
                 "FD"],
               risk_level := "Low" } := rfl
    have hhor : horizonOf gzReq = 3 := rfl
    have hret : returnOf gzReq = 7 := rfl
    have htgt : targetOf gzReq (3/100) = 2/5 := rfl
    have hcorp : corpusOf gzReq 0 = 0 := rfl
    have hrem : remainingOf gzReq (3/100) 0 = 2/5 := by
      simp only [remainingOf, htgt, hcorp]
      norm_num [max_def]
    have hsip : sipOf gzReq (3/100) 0 = 1/100 := by
      simp only [sipOf, hhor, hrem, hret]
      norm_num [calculate_sip_amount, pyRound2, roundHalfEven, sipRaw]
    have hfs : calculate_feasibility_score (1/100) (3/100) = 0 := by
      norm_num [calculate_feasibility_score]
    simp only [analyze_single_goal, hstr, hlook, Option.map_some']
    simp only [hsip, hrem, hret, hhor, hfs]
  · norm_num [calculate_sip_amount, pyRound2, roundHalfEven, sipRaw]

/-- Same shape as `gzReq`, used to witness the amended C6 theorem. -/
def gadgetReq : GoalRequest :=
  { name := some "gadget", amount := some (2/5), time_years := some 3,
    current_savings := some 0 }

theorem gadgetReq_isSome :
    (analyze_single_goal gadgetReq (3/100) 0).isSome = true := rfl

/-- The analysis result for `gadgetReq` at income 3/100. -/
def gadgetGoal : AnalyzedGoal :=
  (analyze_single_goal gadgetReq (3/100) 0).get gadgetReq_isSome

/-- C6 (witness for the amended theorem). -/
theorem optimize_goals_timeline_extension_witness :
    (0:ℚ) < 3/100 ∧
    analyze_single_goal gadgetReq (3/100) 0 = some gadgetGoal ∧
    gadgetGoal ∈ [gadgetGoal] ∧ gadgetGoal.feasibility_score < 60 ∧
    (Suggestion.timeline_extension gadgetGoal.name gadgetGoal.time_horizon_years
        (gadgetGoal.time_horizon_years + 2)
        (calculate_sip_amount gadgetGoal.remaining_amount gadgetGoal.expected_return
          (gadgetGoal.time_horizon_years + 2))
        "Extend timeline by 2 years to reduce monthly SIP burden"
      ∈ optimize_goals [gadgetGoal] (3/100) ∧
     calculate_sip_amount gadgetGoal.remaining_amount gadgetGoal.expected_return
        (gadgetGoal.time_horizon_years + 2) ≤ gadgetGoal.monthly_sip_required) := by
  have hsome : analyze_single_goal gadgetReq (3/100) 0 = some gadgetGoal :=
    (Option.some_get gadgetReq_isSome).symm
  have hscore : gadgetGoal.feasibility_score < 60 := by
    obtain ⟨-, -, -, -, -, -, -, -, hfs⟩ := analyze_single_goal_fields hsome
    rw [hfs]
    have hhor : horizonOf gadgetReq = 3 := rfl
    have hret : returnOf gadgetReq = 7 := rfl
    have htgt : targetOf gadgetReq (3/100) = 2/5 := rfl
    have hcorp : corpusOf gadgetReq 0 = 0 := rfl
    have hrem : remainingOf gadgetReq (3/100) 0 = 2/5 := by
      simp only [remainingOf, htgt, hcorp]
      norm_num [max_def]
    have hsip : sipOf gadgetReq (3/100) 0 = 1/100 := by
      simp only [sipOf, hhor, hrem, hret]
      norm_num [calculate_sip_amount, pyRound2, roundHalfEven, sipRaw]
    rw [hsip]
    norm_num [calculate_feasibility_score]
  exact ⟨by norm_num, hsome, by simp, hscore,
    optimize_goals_timeline_extension gadgetReq (3/100) 0 (3/100) gadgetGoal
      [gadgetGoal] (by norm_num) hsome (by simp) hscore⟩

end MoneyMentor
